import Mathlib

/-!
Verification of the ROSCA forecast engine (`rosca_forecast_app_v13.py`).

The core logic of the repository is embedded shallowly:
* `validate_slab_total` — the slab-allocation validator;
* `run_forecast` — the 60-month forecast projection loop, decomposed into
  `slotRecord` (one emitted record), `monthRecords` (one month's emission over
  durations, slabs and slots) and `forecastLoop` (the stateful month loop with
  its TAM-ceiling early exit);
* `monthly_summary` / `yearly_summary` — the group-by-and-sum aggregators.

Python `float` arithmetic is modelled exactly over `ℚ`; Python's `int(...)`
conversion (truncation toward zero) is `pyInt`, and Python's floor division
`//` on integers is `Int.fdiv`.
-/

namespace Rosca

/-- Python `int(q)` on an exact rational: truncation toward zero. -/
def pyInt (q : ℚ) : ℤ := if q < 0 then -⌊-q⌋ else ⌊q⌋

/-- The `fee_method` configuration field (`"Upfront"` or `"Monthly"` in the app). -/
inductive FeeMethod
  | upfront
  | monthly
deriving DecidableEq, Repr

/-- The configuration dictionary produced by `get_config`. -/
structure Config where
  total_market : ℚ
  tam_pct : ℚ
  start_pct : ℚ
  monthly_growth : ℚ
  yearly_growth : ℚ
  kibor : ℚ
  spread : ℚ
  default_rate : ℚ
  penalty_pct : ℚ
  fee_method : FeeMethod
deriving DecidableEq, Repr

/-- One entry of `slot_fees[d]`: a fee percentage and a blocked flag. -/
structure SlotFee where
  fee : ℚ
  blocked : Bool
deriving DecidableEq, Repr

/-- One row appended to `forecast` by `run_forecast`. -/
structure Record where
  month : ℕ
  year : ℕ
  duration : ℕ
  slab : ℕ
  slot : ℕ
  users : ℤ
  deposit : ℕ
  feePct : ℚ
  feeCollected : ℚ
  nii : ℚ
  defaults : ℤ
  profit : ℚ
deriving DecidableEq, Repr

/-- A default record (used only to take heads of concrete forecast lists). -/
def defaultRec : Record :=
  { month := 0, year := 0, duration := 0, slab := 0, slot := 0, users := 0,
    deposit := 0, feePct := 0, feeCollected := 0, nii := 0, defaults := 0,
    profit := 0 }

/-- `validate_slab_total`: true iff the slab percentages sum to 100 within 0.01. -/
def validate_slab_total (slab_alloc : List (ℕ × ℚ)) : Bool :=
  decide (|(slab_alloc.map Prod.snd).sum - 100| < 0.01)

/-- The scalar configuration values actually read inside the month loop of
`run_forecast`, plus the TAM ceiling `total_market * tam_pct/100`. -/
structure EngineParams where
  kibor : ℚ
  spread : ℚ
  default_rate : ℚ
  penalty_pct : ℚ
  monthly_growth : ℚ
  ceiling : ℚ
deriving DecidableEq, Repr

/-- The record built for one `(month, duration, slab, slot)` combination
(lines 70-92 of the source). -/
def slotRecord (p : EngineParams) (slot_fees : ℕ → ℕ → SlotFee)
    (m d slab : ℕ) (users : ℤ) (slot : ℕ) : Record :=
  let deposit : ℕ := slab * d
  let fee_pct : ℚ := (slot_fees d slot).fee
  let fee : ℚ := (deposit : ℚ) * (fee_pct / 100)
  let nii : ℚ := (deposit : ℚ) * (users : ℚ) * ((p.kibor + p.spread) / 100 / 12)
  let defaults : ℤ := pyInt ((users : ℚ) * p.default_rate / 100)
  let pre : ℤ := Int.fdiv defaults 2
  let post : ℤ := defaults - Int.fdiv defaults 2
  let pre_loss : ℚ := (pre : ℚ) * (deposit : ℚ) * (1 - p.penalty_pct / 100)
  let post_loss : ℚ := (post : ℚ) * (deposit : ℚ)
  { month := m, year := (m - 1) / 12 + 1, duration := d, slab := slab,
    slot := slot, users := users, deposit := deposit, feePct := fee_pct,
    feeCollected := fee * (users : ℚ), nii := nii, defaults := defaults,
    profit := fee * (users : ℚ) + nii - pre_loss - post_loss }

/-- The slot range `range(1, d+1)` of the source. -/
def slotsOf (d : ℕ) : List ℕ := List.range' 1 d

/-- One month's emitted records: the two inner loops over durations, slabs and
slots, skipping non-positive slab percentages and blocked slots. -/
def monthRecords (p : EngineParams) (durations : List ℕ)
    (slab_map : ℕ → List (ℕ × ℚ)) (slot_fees : ℕ → ℕ → SlotFee)
    (active : ℤ) (m : ℕ) : List Record :=
  durations.flatMap fun d =>
    (slab_map d).flatMap fun sp =>
      if sp.2 ≤ 0 then []
      else
        let users := pyInt ((active : ℚ) * (sp.2 / 100))
        (slotsOf d).filterMap fun slot =>
          if (slot_fees d slot).blocked then none
          else some (slotRecord p slot_fees m d sp.1 users slot)

/-- The month loop of `run_forecast`: emits each month's records, then updates
`active_users` and `tam_used`, breaking once `tam_used` reaches the ceiling. -/
def forecastLoop (p : EngineParams) (durations : List ℕ)
    (slab_map : ℕ → List (ℕ × ℚ)) (slot_fees : ℕ → ℕ → SlotFee) :
    List ℕ → ℤ → ℤ → List Record
  | [], _, _ => []
  | m :: rest, active, tam =>
    let recs := monthRecords p durations slab_map slot_fees active m
    let active' := pyInt ((active : ℚ) * (1 + p.monthly_growth / 100))
    let tam' := tam + active'
    if ((tam' : ℚ) ≥ p.ceiling) then recs
    else recs ++ forecastLoop p durations slab_map slot_fees rest active' tam'

/-- The engine parameters read from a configuration. -/
def engineParams (config : Config) : EngineParams :=
  { kibor := config.kibor, spread := config.spread,
    default_rate := config.default_rate, penalty_pct := config.penalty_pct,
    monthly_growth := config.monthly_growth,
    ceiling := config.total_market * config.tam_pct / 100 }

/-- `base_users = int((total_market * tam_pct/100) * (start_pct/100))`. -/
def baseUsers (config : Config) : ℤ :=
  pyInt ((config.total_market * config.tam_pct / 100) * (config.start_pct / 100))

/-- The month indices `range(1, 61)`. -/
def months60 : List ℕ := List.range' 1 60

/-- `run_forecast` (lines 56-97 of the source). -/
def run_forecast (config : Config) (durations : List ℕ)
    (slab_map : ℕ → List (ℕ × ℚ)) (slot_fees : ℕ → ℕ → SlotFee) :
    List Record :=
  forecastLoop (engineParams config) durations slab_map slot_fees months60
    (baseUsers config) (baseUsers config)

/-- One row of a summary table. -/
structure SummaryRow where
  key : ℕ
  users : ℤ
  feeCollected : ℚ
  nii : ℚ
  profit : ℚ
deriving DecidableEq, Repr

/-- `df.groupby(key)[["Users","Fee Collected","NII","Profit"]].sum().reset_index()`
on a DataFrame built from a non-empty record list (so the key column exists):
one row per distinct key, ascending key order, each measure summed. -/
def groupSum (key : Record → ℕ) (records : List Record) : List SummaryRow :=
  (((records.map key).dedup).insertionSort (· ≤ ·)).map fun k =>
    let group := records.filter fun r => key r == k
    { key := k, users := (group.map Record.users).sum,
      feeCollected := (group.map Record.feeCollected).sum,
      nii := (group.map Record.nii).sum,
      profit := (group.map Record.profit).sum }

/-- `monthly_summary` (lines 99-100 of the source). On an empty record list
`pd.DataFrame([])` has no `Month` column, so `df.groupby("Month")` raises
`KeyError`: the function is fallible, and `none` models that exception. -/
def monthly_summary (records : List Record) : Option (List SummaryRow) :=
  if records.isEmpty then none else some (groupSum Record.month records)

/-- `yearly_summary` (lines 102-103 of the source). On an empty record list
`pd.DataFrame([])` has no `Year` column, so `df.groupby("Year")` raises
`KeyError`: the function is fallible, and `none` models that exception. -/
def yearly_summary (records : List Record) : Option (List SummaryRow) :=
  if records.isEmpty then none else some (groupSum Record.year records)

/-! ### Basic lemmas about the embedded operations -/

theorem pyInt_eq_floor {q : ℚ} (h : 0 ≤ q) : pyInt q = ⌊q⌋ := by
  simp [pyInt, not_lt.mpr h]

@[simp] theorem pyInt_zero : pyInt 0 = 0 := by
  simp [pyInt]

theorem pyInt_eq_zero {q : ℚ} (h0 : 0 ≤ q) (h1 : q < 1) : pyInt q = 0 := by
  rw [pyInt_eq_floor h0]
  exact Int.floor_eq_zero_iff.mpr ⟨h0, h1⟩

@[simp] theorem slotRecord_month (p : EngineParams) (sf : ℕ → ℕ → SlotFee)
    (m d slab : ℕ) (users : ℤ) (slot : ℕ) :
    (slotRecord p sf m d slab users slot).month = m := rfl

@[simp] theorem slotRecord_year (p : EngineParams) (sf : ℕ → ℕ → SlotFee)
    (m d slab : ℕ) (users : ℤ) (slot : ℕ) :
    (slotRecord p sf m d slab users slot).year = (m - 1) / 12 + 1 := rfl

@[simp] theorem slotRecord_duration (p : EngineParams) (sf : ℕ → ℕ → SlotFee)
    (m d slab : ℕ) (users : ℤ) (slot : ℕ) :
    (slotRecord p sf m d slab users slot).duration = d := rfl

@[simp] theorem slotRecord_slab (p : EngineParams) (sf : ℕ → ℕ → SlotFee)
    (m d slab : ℕ) (users : ℤ) (slot : ℕ) :
    (slotRecord p sf m d slab users slot).slab = slab := rfl

@[simp] theorem slotRecord_slot (p : EngineParams) (sf : ℕ → ℕ → SlotFee)
    (m d slab : ℕ) (users : ℤ) (slot : ℕ) :
    (slotRecord p sf m d slab users slot).slot = slot := rfl

@[simp] theorem slotRecord_users (p : EngineParams) (sf : ℕ → ℕ → SlotFee)
    (m d slab : ℕ) (users : ℤ) (slot : ℕ) :
    (slotRecord p sf m d slab users slot).users = users := rfl

@[simp] theorem slotRecord_deposit (p : EngineParams) (sf : ℕ → ℕ → SlotFee)
    (m d slab : ℕ) (users : ℤ) (slot : ℕ) :
    (slotRecord p sf m d slab users slot).deposit = slab * d := rfl

@[simp] theorem slotRecord_feePct (p : EngineParams) (sf : ℕ → ℕ → SlotFee)
    (m d slab : ℕ) (users : ℤ) (slot : ℕ) :
    (slotRecord p sf m d slab users slot).feePct = (sf d slot).fee := rfl

/-- All financial measures of a record with zero users vanish. -/
theorem slotRecord_zero_users (p : EngineParams) (sf : ℕ → ℕ → SlotFee)
    (m d slab : ℕ) (slot : ℕ) :
    (slotRecord p sf m d slab 0 slot).feeCollected = 0 ∧
    (slotRecord p sf m d slab 0 slot).nii = 0 ∧
    (slotRecord p sf m d slab 0 slot).defaults = 0 ∧
    (slotRecord p sf m d slab 0 slot).profit = 0 := by
  refine ⟨?_, ?_, ?_, ?_⟩ <;>
    simp [slotRecord, Int.zero_fdiv]

/-- Characterization of one month's emitted records. -/
theorem mem_monthRecords {p : EngineParams} {durs : List ℕ}
    {sm : ℕ → List (ℕ × ℚ)} {sf : ℕ → ℕ → SlotFee} {active : ℤ} {m : ℕ}
    {r : Record} :
    r ∈ monthRecords p durs sm sf active m ↔
      ∃ d ∈ durs, ∃ sp ∈ sm d, 0 < sp.2 ∧ ∃ slot ∈ slotsOf d,
        (sf d slot).blocked = false ∧
        r = slotRecord p sf m d sp.1 (pyInt ((active : ℚ) * (sp.2 / 100))) slot := by
  simp only [monthRecords, List.mem_flatMap]
  constructor
  · rintro ⟨d, hd, sp, hsp, hr⟩
    by_cases hpos : sp.2 ≤ 0
    · simp [hpos] at hr
    · rw [if_neg hpos] at hr
      obtain ⟨slot, hslot, hsome⟩ := List.mem_filterMap.mp hr
      by_cases hb : (sf d slot).blocked
      · simp [hb] at hsome
      · rw [if_neg hb] at hsome
        exact ⟨d, hd, sp, hsp, lt_of_not_le hpos, slot, hslot,
          Bool.eq_false_iff.mpr hb, (Option.some_inj.mp hsome).symm⟩
  · rintro ⟨d, hd, sp, hsp, hpos, slot, hslot, hb, rfl⟩
    refine ⟨d, hd, sp, hsp, ?_⟩
    rw [if_neg (not_le.mpr hpos)]
    exact List.mem_filterMap.mpr ⟨slot, hslot, by rw [hb]; rfl⟩

/-- Every record of the month loop comes from some month's `monthRecords`. -/
theorem mem_forecastLoop {p : EngineParams} {durs : List ℕ}
    {sm : ℕ → List (ℕ × ℚ)} {sf : ℕ → ℕ → SlotFee} :
    ∀ (months : List ℕ) (active tam : ℤ) (r : Record),
      r ∈ forecastLoop p durs sm sf months active tam →
      ∃ m ∈ months, ∃ a : ℤ, r ∈ monthRecords p durs sm sf a m := by
  intro months
  induction months with
  | nil => intro active tam r h; simp [forecastLoop] at h
  | cons m rest ih =>
    intro active tam r h
    simp only [forecastLoop] at h
    split at h
    · exact ⟨m, List.mem_cons_self m rest, active, h⟩
    · rcases List.mem_append.mp h with h' | h'
      · exact ⟨m, List.mem_cons_self m rest, active, h'⟩
      · obtain ⟨m', hm', a, ha⟩ := ih _ _ _ h'
        exact ⟨m', List.mem_cons_of_mem _ hm', a, ha⟩

/-- The keys of a grouped summary are the sorted deduplicated keys. -/
theorem groupSum_keys (key : Record → ℕ) (rs : List Record) :
    (groupSum key rs).map SummaryRow.key =
      ((rs.map key).dedup).insertionSort (· ≤ ·) := by
  simp [groupSum, List.map_map, Function.comp_def]

theorem groupSum_keys_sorted (key : Record → ℕ) (rs : List Record) :
    ((groupSum key rs).map SummaryRow.key).Sorted (· ≤ ·) := by
  rw [groupSum_keys]
  exact List.sorted_insertionSort _ _

theorem groupSum_keys_nodup (key : Record → ℕ) (rs : List Record) :
    ((groupSum key rs).map SummaryRow.key).Nodup := by
  rw [groupSum_keys]
  exact (List.perm_insertionSort _ _).symm.nodup (List.nodup_dedup _)

theorem groupSum_keys_mem (key : Record → ℕ) (rs : List Record) (k : ℕ) :
    k ∈ (groupSum key rs).map SummaryRow.key ↔ k ∈ rs.map key := by
  rw [groupSum_keys]
  simp

/-- Each summary row carries the sums over the records sharing its key. -/
theorem groupSum_row_sums (key : Record → ℕ) (rs : List Record) :
    ∀ row ∈ groupSum key rs,
      row.users = ((rs.filter fun r => key r == row.key).map Record.users).sum ∧
      row.feeCollected =
        ((rs.filter fun r => key r == row.key).map Record.feeCollected).sum ∧
      row.nii = ((rs.filter fun r => key r == row.key).map Record.nii).sum ∧
      row.profit = ((rs.filter fun r => key r == row.key).map Record.profit).sum := by
  intro row hrow
  simp only [groupSum, List.mem_map] at hrow
  obtain ⟨k, _, rfl⟩ := hrow
  exact ⟨rfl, rfl, rfl, rfl⟩

/-- The head month's records always survive the TAM-ceiling test. -/
theorem monthRecords_subset_forecastLoop (p : EngineParams) (durs : List ℕ)
    (sm : ℕ → List (ℕ × ℚ)) (sf : ℕ → ℕ → SlotFee) (m : ℕ) (rest : List ℕ)
    (active tam : ℤ) :
    monthRecords p durs sm sf active m ⊆
      forecastLoop p durs sm sf (m :: rest) active tam := by
  intro r hr
  simp only [forecastLoop]
  split
  · exact hr
  · exact List.mem_append_left _ hr

/-! ### Concrete inputs used in scenario and witness proofs -/

/-- The configuration of the spec's §8 scenario. -/
def cfg1 : Config :=
  { total_market := 20000000, tam_pct := 10, start_pct := 10, monthly_growth := 2,
    yearly_growth := 5, kibor := 11, spread := 5, default_rate := 1,
    penalty_pct := 10, fee_method := .upfront }

/-- A small configuration whose run stops after one month. -/
def cfgW : Config :=
  { total_market := 100, tam_pct := 100, start_pct := 100, monthly_growth := 0,
    yearly_growth := 5, kibor := 7, spread := 5, default_rate := 0,
    penalty_pct := 10, fee_method := .upfront }

/-- `cfgW` with different values of the two unused configuration fields. -/
def cfgB : Config :=
  { cfgW with yearly_growth := 50, fee_method := .monthly }

/-- Slab map giving duration 3 a single slab 1000 at 100%. -/
def smW : ℕ → List (ℕ × ℚ) := fun d => if d = 3 then [(1000, 100)] else []

/-- Slab map giving duration 3 a single slab 1000 at 0.5%. -/
def smZ : ℕ → List (ℕ × ℚ) := fun d => if d = 3 then [(1000, 1/2)] else []

/-- Slot-fee table: every slot has fee 1% and is unblocked. -/
def sfW : ℕ → ℕ → SlotFee := fun _ _ => { fee := 1, blocked := false }

/-- The first record of the scenario forecast: month 1, slab 1000, slot 1. -/
def c1rec : Record := (run_forecast cfg1 [3] smW sfW).headD defaultRec

theorem baseUsers_cfg1 : baseUsers cfg1 = 200000 := by
  norm_num [baseUsers, cfg1, pyInt]

theorem monthRecords_cfg1 :
    monthRecords (engineParams cfg1) [3] smW sfW 200000 1 =
      [slotRecord (engineParams cfg1) sfW 1 3 1000 200000 1,
       slotRecord (engineParams cfg1) sfW 1 3 1000 200000 2,
       slotRecord (engineParams cfg1) sfW 1 3 1000 200000 3] := by
  norm_num [monthRecords, smW, sfW, slotsOf, pyInt,
    show List.range' 1 3 = [1, 2, 3] from rfl]
  rfl

/-- Unfolding equation for one step of the month loop. -/
theorem forecastLoop_cons (p : EngineParams) (durs : List ℕ)
    (sm : ℕ → List (ℕ × ℚ)) (sf : ℕ → ℕ → SlotFee) (m : ℕ) (rest : List ℕ)
    (active tam : ℤ) :
    forecastLoop p durs sm sf (m :: rest) active tam =
      if ((tam + pyInt ((active : ℚ) * (1 + p.monthly_growth / 100)) : ℤ) : ℚ) ≥
          p.ceiling
      then monthRecords p durs sm sf active m
      else monthRecords p durs sm sf active m ++
        forecastLoop p durs sm sf rest
          (pyInt ((active : ℚ) * (1 + p.monthly_growth / 100)))
          (tam + pyInt ((active : ℚ) * (1 + p.monthly_growth / 100))) := rfl

theorem c1rec_eval :
    c1rec = slotRecord (engineParams cfg1) sfW 1 3 1000 200000 1 := by
  show (run_forecast cfg1 [3] smW sfW).headD defaultRec = _
  unfold run_forecast
  rw [baseUsers_cfg1, show months60 = 1 :: List.range' 2 59 from rfl,
    forecastLoop_cons]
  split
  · rw [monthRecords_cfg1]
    rfl
  · rw [monthRecords_cfg1]
    rfl

/-- The month-1, duration-3, slab-1000, slot-1 record of the `cfgW` run. -/
def rW : Record :=
  slotRecord (engineParams cfgW) sfW 1 3 1000
    (pyInt ((baseUsers cfgW : ℚ) * ((100 : ℚ) / 100))) 1

theorem rW_mem : rW ∈ run_forecast cfgW [3] smW sfW := by
  unfold run_forecast
  rw [show months60 = 1 :: List.range' 2 59 from rfl]
  refine monthRecords_subset_forecastLoop _ _ _ _ _ _ _ _ ?_
  refine mem_monthRecords.mpr ⟨3, ?_, (1000, 100), ?_, ?_, 1, ?_, rfl, rfl⟩
  · simp
  · simp [smW]
  · norm_num
  · decide

theorem baseUsers_cfgW : baseUsers cfgW = 100 := by
  norm_num [baseUsers, cfgW, pyInt]

/-! ### Claim theorems -/

/-- Claim C1, counterexample: in the §8 scenario (total_market 20000000,
tam_pct 10, start_pct 10, monthly_growth 2, kibor 11, spread 5, default_rate 1,
penalty_pct 10; duration 3, slab 1000 at 100%, all slots fee 1% unblocked),
the month-1 slab-1000 slot-1 record does not carry the claimed values: the
claimed nii of 800000 and profit of 1100000 are both wrong on the code. -/
theorem c1_scenario_record_cex :
    ¬(c1rec.users = 200000 ∧ c1rec.deposit = 3000 ∧
      c1rec.feeCollected = 6000000 ∧ c1rec.nii = 800000 ∧
      c1rec.defaults = 2000 ∧ c1rec.profit = 1100000) := by
  rw [c1rec_eval]
  rintro ⟨-, -, -, hnii, -, -⟩
  revert hnii
  norm_num [slotRecord, engineParams, cfg1]

/-- Claim C1, amended: in the §8 scenario the month-1 slab-1000 slot-1 record
has users 200000, deposit 3000, fee 1%, fee_collected 6000000,
nii 8000000 (= 3000 x 200000 x 16/100/12), defaults 2000, and
profit 6000000 + 8000000 - 2700000 - 3000000 = 8300000. -/
theorem c1_scenario_record :
    c1rec.month = 1 ∧ c1rec.year = 1 ∧ c1rec.duration = 3 ∧
    c1rec.slab = 1000 ∧ c1rec.slot = 1 ∧ c1rec.users = 200000 ∧
    c1rec.deposit = 3000 ∧ c1rec.feePct = 1 ∧ c1rec.feeCollected = 6000000 ∧
    c1rec.nii = 8000000 ∧ c1rec.defaults = 2000 ∧ c1rec.profit = 8300000 := by
  rw [c1rec_eval]
  refine ⟨rfl, rfl, rfl, rfl, rfl, rfl, rfl, rfl, ?_, ?_, ?_, ?_⟩
  · norm_num [slotRecord, sfW]
  · norm_num [slotRecord, engineParams, cfg1]
  · norm_num [slotRecord, engineParams, cfg1, pyInt]
  · norm_num [slotRecord, engineParams, cfg1, sfW, pyInt,
      show Int.fdiv 2000 2 = 1000 from rfl]

/-- Claim C2: one step of the month loop emits the month's records, then sets
the active-user count to int(active x (1 + monthly_growth/100)) (the floor, for
nonnegative arguments), adds this post-growth value to tam_used, and breaks as
soon as tam_used reaches the ceiling total_market x tam_pct/100; tam_used is
initialized to base_users. -/
theorem forecastLoop_state_update :
    (∀ (p : EngineParams) (durs : List ℕ) (sm : ℕ → List (ℕ × ℚ))
        (sf : ℕ → ℕ → SlotFee) (m : ℕ) (rest : List ℕ) (active tam : ℤ),
      forecastLoop p durs sm sf (m :: rest) active tam =
        if ((tam + pyInt ((active : ℚ) * (1 + p.monthly_growth / 100)) : ℤ) : ℚ) ≥
            p.ceiling
        then monthRecords p durs sm sf active m
        else monthRecords p durs sm sf active m ++
          forecastLoop p durs sm sf rest
            (pyInt ((active : ℚ) * (1 + p.monthly_growth / 100)))
            (tam + pyInt ((active : ℚ) * (1 + p.monthly_growth / 100)))) ∧
    (∀ (cfg : Config) (durs : List ℕ) (sm : ℕ → List (ℕ × ℚ))
        (sf : ℕ → ℕ → SlotFee),
      run_forecast cfg durs sm sf =
        forecastLoop (engineParams cfg) durs sm sf months60 (baseUsers cfg)
          (baseUsers cfg)) ∧
    (∀ cfg : Config,
      (engineParams cfg).ceiling = cfg.total_market * cfg.tam_pct / 100) ∧
    (∀ q : ℚ, 0 ≤ q → pyInt q = ⌊q⌋) :=
  ⟨forecastLoop_cons, fun _ _ _ _ => rfl, fun _ => rfl, fun _ h => pyInt_eq_floor h⟩

/-- Witness for C2's floor identity at a concrete nonnegative input. -/
theorem forecastLoop_state_update_w :
    (0 : ℚ) ≤ 3 / 2 ∧ pyInt (3 / 2) = ⌊(3 / 2 : ℚ)⌋ :=
  ⟨by norm_num, forecastLoop_state_update.2.2.2 (3 / 2) (by norm_num)⟩

/-- Claim C3: `run_forecast` is total (it is a Lean function), and every
emitted record's month lies between 1 and 60; no record with month above 60
exists. -/
theorem run_forecast_month_bounded (cfg : Config) (durs : List ℕ)
    (sm : ℕ → List (ℕ × ℚ)) (sf : ℕ → ℕ → SlotFee) :
    ∀ r ∈ run_forecast cfg durs sm sf, 1 ≤ r.month ∧ r.month ≤ 60 := by
  intro r hr
  obtain ⟨m, hm, a, ha⟩ := mem_forecastLoop _ _ _ _ hr
  obtain ⟨d, -, sp, -, -, slot, -, -, rfl⟩ := mem_monthRecords.mp ha
  simp only [slotRecord_month]
  simp only [months60, List.mem_range'_1] at hm
  omega

/-- Witness for C3 at a concrete run and record. -/
theorem run_forecast_month_bounded_w : 1 ≤ rW.month ∧ rW.month ≤ 60 :=
  run_forecast_month_bounded cfgW [3] smW sfW rW rW_mem

/-- Claim C4, counterexample: on the empty record sequence neither summary
yields an empty table — both fail (pandas raises `KeyError` because the empty
DataFrame has no Month/Year column), refuting the claimed totality on the
empty input. -/
theorem summaries_empty_cex :
    monthly_summary [] = none ∧ yearly_summary [] = none :=
  ⟨rfl, rfl⟩

/-- Claim C4, amended: over any non-empty record sequence the summaries
succeed and return one row per distinct month (respectively year) present, in
ascending order without repetition, each row summing Users, Fee Collected,
NII and Profit over the records sharing its key; on the empty sequence they
fail with a `KeyError` instead of returning an empty table. -/
theorem summaries_spec :
    monthly_summary [] = none ∧ yearly_summary [] = none ∧
    (∀ rs : List Record, rs ≠ [] →
      ∃ t, monthly_summary rs = some t ∧
        (t.map SummaryRow.key).Sorted (· ≤ ·) ∧
        (t.map SummaryRow.key).Nodup ∧
        (∀ k, k ∈ t.map SummaryRow.key ↔ k ∈ rs.map Record.month) ∧
        (∀ row ∈ t,
          row.users = ((rs.filter fun r => r.month == row.key).map Record.users).sum ∧
          row.feeCollected =
            ((rs.filter fun r => r.month == row.key).map Record.feeCollected).sum ∧
          row.nii = ((rs.filter fun r => r.month == row.key).map Record.nii).sum ∧
          row.profit =
            ((rs.filter fun r => r.month == row.key).map Record.profit).sum)) ∧
    (∀ rs : List Record, rs ≠ [] →
      ∃ t, yearly_summary rs = some t ∧
        (t.map SummaryRow.key).Sorted (· ≤ ·) ∧
        (t.map SummaryRow.key).Nodup ∧
        (∀ k, k ∈ t.map SummaryRow.key ↔ k ∈ rs.map Record.year) ∧
        (∀ row ∈ t,
          row.users = ((rs.filter fun r => r.year == row.key).map Record.users).sum ∧
          row.feeCollected =
            ((rs.filter fun r => r.year == row.key).map Record.feeCollected).sum ∧
          row.nii = ((rs.filter fun r => r.year == row.key).map Record.nii).sum ∧
          row.profit =
            ((rs.filter fun r => r.year == row.key).map Record.profit).sum)) := by
  refine ⟨rfl, rfl, ?_, ?_⟩
  · intro rs hrs
    refine ⟨groupSum Record.month rs, ?_, groupSum_keys_sorted _ _,
      groupSum_keys_nodup _ _, groupSum_keys_mem _ _, groupSum_row_sums _ _⟩
    simp [monthly_summary, hrs]
  · intro rs hrs
    refine ⟨groupSum Record.year rs, ?_, groupSum_keys_sorted _ _,
      groupSum_keys_nodup _ _, groupSum_keys_mem _ _, groupSum_row_sums _ _⟩
    simp [yearly_summary, hrs]

/-- Witness for C4 on a concrete non-empty record sequence. -/
theorem summaries_spec_w :
    ([defaultRec] : List Record) ≠ [] ∧
    ∃ t, monthly_summary [defaultRec] = some t ∧
      (t.map SummaryRow.key).Sorted (· ≤ ·) ∧
      (t.map SummaryRow.key).Nodup ∧
      (∀ k, k ∈ t.map SummaryRow.key ↔
        k ∈ ([defaultRec] : List Record).map Record.month) ∧
      (∀ row ∈ t,
        row.users = ((([defaultRec] : List Record).filter
          fun r => r.month == row.key).map Record.users).sum ∧
        row.feeCollected = ((([defaultRec] : List Record).filter
          fun r => r.month == row.key).map Record.feeCollected).sum ∧
        row.nii = ((([defaultRec] : List Record).filter
          fun r => r.month == row.key).map Record.nii).sum ∧
        row.profit = ((([defaultRec] : List Record).filter
          fun r => r.month == row.key).map Record.profit).sum) :=
  ⟨by simp, summaries_spec.2.2.1 [defaultRec] (by simp)⟩

/-- Claim C5: `validate_slab_total` returns true iff the absolute difference
between the sum of the allocation's percentages and 100 is below 0.01; it is a
pure total Boolean function. -/
theorem validate_slab_total_iff (alloc : List (ℕ × ℚ)) :
    validate_slab_total alloc = true ↔
      |(alloc.map Prod.snd).sum - 100| < 0.01 := by
  simp [validate_slab_total]

/-- Witness for C5 on an exact-100 allocation. -/
theorem validate_slab_total_iff_w : validate_slab_total [(1000, 100)] = true :=
  (validate_slab_total_iff [(1000, 100)]).mpr (by norm_num)

/-- Claim C6: every emitted record's slot lies in 1..duration and is unblocked
in the slot-fee table; a duration all of whose slots are blocked contributes no
record in any month. -/
theorem run_forecast_unblocked (cfg : Config) (durs : List ℕ)
    (sm : ℕ → List (ℕ × ℚ)) (sf : ℕ → ℕ → SlotFee) :
    (∀ r ∈ run_forecast cfg durs sm sf,
      1 ≤ r.slot ∧ r.slot ≤ r.duration ∧
        (sf r.duration r.slot).blocked = false) ∧
    (∀ d : ℕ, (∀ s : ℕ, 1 ≤ s → s ≤ d → (sf d s).blocked = true) →
      ∀ r ∈ run_forecast cfg durs sm sf, r.duration ≠ d) := by
  have main : ∀ r ∈ run_forecast cfg durs sm sf,
      1 ≤ r.slot ∧ r.slot ≤ r.duration ∧
        (sf r.duration r.slot).blocked = false := by
    intro r hr
    obtain ⟨m, -, a, ha⟩ := mem_forecastLoop _ _ _ _ hr
    obtain ⟨d, -, sp, -, -, slot, hslot, hb, rfl⟩ := mem_monthRecords.mp ha
    simp only [slotRecord_slot, slotRecord_duration]
    simp only [slotsOf, List.mem_range'_1] at hslot
    exact ⟨hslot.1, by omega, hb⟩
  refine ⟨main, ?_⟩
  intro d hall r hr hdur
  obtain ⟨h1, h2, h3⟩ := main r hr
  rw [hdur] at h2 h3
  rw [hall r.slot h1 h2] at h3
  exact Bool.noConfusion h3

/-- Witness for C6 at a concrete run and record. -/
theorem run_forecast_unblocked_w :
    1 ≤ rW.slot ∧ rW.slot ≤ rW.duration ∧
      (sfW rW.duration rW.slot).blocked = false :=
  (run_forecast_unblocked cfgW [3] smW sfW).1 rW rW_mem

/-- Claim C7: every emitted record's slab has a strictly positive allocation
percentage for its duration, and a slab whose allocation percentages are all
non-positive never appears in any record. -/
theorem run_forecast_slab_alloc_pos (cfg : Config) (durs : List ℕ)
    (sm : ℕ → List (ℕ × ℚ)) (sf : ℕ → ℕ → SlotFee) :
    (∀ r ∈ run_forecast cfg durs sm sf,
      ∃ pct : ℚ, (r.slab, pct) ∈ sm r.duration ∧ 0 < pct) ∧
    (∀ (d slab : ℕ), (∀ pct : ℚ, (slab, pct) ∈ sm d → pct ≤ 0) →
      ∀ r ∈ run_forecast cfg durs sm sf, ¬(r.duration = d ∧ r.slab = slab)) := by
  have main : ∀ r ∈ run_forecast cfg durs sm sf,
      ∃ pct : ℚ, (r.slab, pct) ∈ sm r.duration ∧ 0 < pct := by
    intro r hr
    obtain ⟨m, -, a, ha⟩ := mem_forecastLoop _ _ _ _ hr
    obtain ⟨d, -, sp, hsp, hpos, slot, -, -, rfl⟩ := mem_monthRecords.mp ha
    refine ⟨sp.2, ?_, hpos⟩
    simpa [slotRecord_slab, slotRecord_duration] using hsp
  refine ⟨main, ?_⟩
  rintro d slab hall r hr ⟨hd, hs⟩
  obtain ⟨pct, hmem, hpos⟩ := main r hr
  rw [hd, hs] at hmem
  exact absurd (hall pct hmem) (not_le.mpr hpos)

/-- Witness for C7 at a concrete run and record. -/
theorem run_forecast_slab_alloc_pos_w :
    ∃ pct : ℚ, (rW.slab, pct) ∈ smW rW.duration ∧ 0 < pct :=
  (run_forecast_slab_alloc_pos cfgW [3] smW sfW).1 rW rW_mem

/-- Claim C8: every emitted record satisfies
year = (month - 1) / 12 + 1 with integer division. -/
theorem run_forecast_year_formula (cfg : Config) (durs : List ℕ)
    (sm : ℕ → List (ℕ × ℚ)) (sf : ℕ → ℕ → SlotFee) :
    ∀ r ∈ run_forecast cfg durs sm sf, r.year = (r.month - 1) / 12 + 1 := by
  intro r hr
  obtain ⟨m, -, a, ha⟩ := mem_forecastLoop _ _ _ _ hr
  obtain ⟨d, -, sp, -, -, slot, -, -, rfl⟩ := mem_monthRecords.mp ha
  simp only [slotRecord_year, slotRecord_month]

/-- Witness for C8 at a concrete run and record. -/
theorem run_forecast_year_formula_w : rW.year = (rW.month - 1) / 12 + 1 :=
  run_forecast_year_formula cfgW [3] smW sfW rW rW_mem

/-- Claim C9: `yearly_growth` and `fee_method` never influence the forecast —
two configurations equal on every other field produce identical record
sequences. -/
theorem run_forecast_ignores_unused_fields (c₁ c₂ : Config) (durs : List ℕ)
    (sm : ℕ → List (ℕ × ℚ)) (sf : ℕ → ℕ → SlotFee)
    (h1 : c₁.total_market = c₂.total_market) (h2 : c₁.tam_pct = c₂.tam_pct)
    (h3 : c₁.start_pct = c₂.start_pct)
    (h4 : c₁.monthly_growth = c₂.monthly_growth) (h5 : c₁.kibor = c₂.kibor)
    (h6 : c₁.spread = c₂.spread) (h7 : c₁.default_rate = c₂.default_rate)
    (h8 : c₁.penalty_pct = c₂.penalty_pct) :
    run_forecast c₁ durs sm sf = run_forecast c₂ durs sm sf := by
  obtain ⟨a1, a2, a3, a4, a5, a6, a7, a8, a9, a10⟩ := c₁
  obtain ⟨b1, b2, b3, b4, b5, b6, b7, b8, b9, b10⟩ := c₂
  dsimp only at h1 h2 h3 h4 h5 h6 h7 h8
  subst h1 h2 h3 h4 h5 h6 h7 h8
  rfl

/-- Witness for C9: two configurations differing exactly in the two unused
fields give the same forecast. -/
theorem run_forecast_ignores_unused_fields_w :
    cfgW.yearly_growth ≠ cfgB.yearly_growth ∧
    cfgW.fee_method ≠ cfgB.fee_method ∧
    run_forecast cfgW [3] smW sfW = run_forecast cfgB [3] smW sfW :=
  ⟨by norm_num [cfgW, cfgB], by decide,
   run_forecast_ignores_unused_fields cfgW cfgB [3] smW sfW rfl rfl rfl rfl rfl
     rfl rfl rfl⟩

/-- Claim C10: a slab with positive percentage whose user count floors to 0
still produces one record per unblocked slot (month 1 exhibited, where the
active-user state is base_users) with Users, Fee Collected, NII, Defaults and
Profit all 0, while Deposit/User and Fee % keep their usual values; and in
general every emitted record with Users = 0 has all four measures 0. -/
theorem run_forecast_zero_user_records :
    (∀ (cfg : Config) (durs : List ℕ) (sm : ℕ → List (ℕ × ℚ))
        (sf : ℕ → ℕ → SlotFee) (d : ℕ), d ∈ durs → ∀ sp ∈ sm d, 0 < sp.2 →
      pyInt ((baseUsers cfg : ℚ) * (sp.2 / 100)) = 0 →
      ∀ slot ∈ slotsOf d, (sf d slot).blocked = false →
      ∃ r ∈ run_forecast cfg durs sm sf,
        r.month = 1 ∧ r.duration = d ∧ r.slab = sp.1 ∧ r.slot = slot ∧
        r.users = 0 ∧ r.feeCollected = 0 ∧ r.nii = 0 ∧ r.defaults = 0 ∧
        r.profit = 0 ∧ r.deposit = sp.1 * d ∧ r.feePct = (sf d slot).fee) ∧
    (∀ (cfg : Config) (durs : List ℕ) (sm : ℕ → List (ℕ × ℚ))
        (sf : ℕ → ℕ → SlotFee),
      ∀ r ∈ run_forecast cfg durs sm sf, r.users = 0 →
        r.feeCollected = 0 ∧ r.nii = 0 ∧ r.defaults = 0 ∧ r.profit = 0) := by
  constructor
  · intro cfg durs sm sf d hd sp hsp hpos h0 slot hslot hb
    refine ⟨slotRecord (engineParams cfg) sf 1 d sp.1 0 slot, ?_, rfl, rfl, rfl,
      rfl, rfl, (slotRecord_zero_users _ _ _ _ _ _).1,
      (slotRecord_zero_users _ _ _ _ _ _).2.1,
      (slotRecord_zero_users _ _ _ _ _ _).2.2.1,
      (slotRecord_zero_users _ _ _ _ _ _).2.2.2, rfl, rfl⟩
    show slotRecord (engineParams cfg) sf 1 d sp.1 0 slot ∈
      run_forecast cfg durs sm sf
    unfold run_forecast
    rw [show months60 = 1 :: List.range' 2 59 from rfl]
    refine monthRecords_subset_forecastLoop _ _ _ _ _ _ _ _ ?_
    refine mem_monthRecords.mpr ⟨d, hd, sp, hsp, hpos, slot, hslot, hb, ?_⟩
    rw [h0]
  · intro cfg durs sm sf r hr h0
    obtain ⟨m, -, a, ha⟩ := mem_forecastLoop _ _ _ _ hr
    obtain ⟨d, -, sp, -, -, slot, -, -, rfl⟩ := mem_monthRecords.mp ha
    rw [slotRecord_users] at h0
    rw [h0]
    exact slotRecord_zero_users _ _ _ _ _ _

/-- Witness for C10: with base 100 users and a 0.5% slab the user count floors
to 0 and a zero-measure record is still emitted. -/
theorem run_forecast_zero_user_records_w :
    ∃ r ∈ run_forecast cfgW [3] smZ sfW,
      r.month = 1 ∧ r.duration = 3 ∧ r.slab = (1000, (1 : ℚ) / 2).1 ∧
      r.slot = 1 ∧ r.users = 0 ∧ r.feeCollected = 0 ∧ r.nii = 0 ∧
      r.defaults = 0 ∧ r.profit = 0 ∧ r.deposit = (1000, (1 : ℚ) / 2).1 * 3 ∧
      r.feePct = (sfW 3 1).fee :=
  run_forecast_zero_user_records.1 cfgW [3] smZ sfW 3 (by decide)
    (1000, 1 / 2) (by simp [smZ]) (by norm_num)
    (pyInt_eq_zero (by rw [baseUsers_cfgW]; norm_num)
      (by rw [baseUsers_cfgW]; norm_num))
    1 (by decide) rfl

end Rosca
